import Mathlib

/-!
Verification development for the `media-device-selector` repository.

The repository's logic lives in `src/hooks/useMediaDevices.ts` (two variants
concatenated in the file; the first is the primary one, the second a legacy
variant kept in the same source file) and
`src/components/DeviceSelectorModal.tsx`.  The definitions below are a
shallow embedding of that code: React state updates become explicit state
passing, `MediaStream` handles become identifiers in an explicit `World`
recording which streams still have live (un-stopped) tracks, and the async
`getUserMedia` call is modelled with an explicit success oracle.  Each call
of an async operation is modelled as running to completion before the next
begins, matching the cooperative single-task-queue execution model of the
component (each `selectDevice` invocation is awaited by its caller).
-/

namespace MediaDeviceSelector

/-- The three device kinds from `src/types.ts` (`MediaDeviceKind`). -/
inductive MDKind where
  | audioinput
  | videoinput
  | audiooutput
deriving DecidableEq, Repr

/-- `SelectedDevices` from `src/types.ts`: one nullable id per kind. -/
structure SelectedDevices where
  microphoneId : Option String
  cameraId : Option String
  speakerId : Option String
deriving DecidableEq, Repr

/-- Errors surfaced by the hook, abstracting the `Error` objects it
constructs: the not-supported error from the head of `selectDevice`, the
device-access failure from a failed `getUserMedia`, and the enumeration
failure from a failed `enumerateDevices`. -/
inductive MDError where
  | notSupported
  | deviceAccessFailed (kind : MDKind)
  | enumerationFailed
deriving DecidableEq, Repr

/-- JavaScript `a || b` on nullable strings: `null` and the empty string are
falsy, so they fall through to `b`. -/
def jsOr (a b : Option String) : Option String :=
  match a with
  | some s => if s = "" then b else some s
  | none => b

/-- The field of `SelectedDevices` that belongs to a kind. -/
def selField (kind : MDKind) (sel : SelectedDevices) : Option String :=
  match kind with
  | .audioinput => sel.microphoneId
  | .videoinput => sel.cameraId
  | .audiooutput => sel.speakerId

/-- The `setSelectedDevices` update inside `selectDevice`
(`useMediaDevices.ts` lines 79-93): write `deviceId` into the field of the
given kind, leaving the other two fields unchanged.  (The source performs
this same functional update twice in a row; the two updates compose to a
single one.) -/
def applySelection (kind : MDKind) (deviceId : String) (sel : SelectedDevices) :
    SelectedDevices :=
  match kind with
  | .audioinput => { sel with microphoneId := some deviceId }
  | .videoinput => { sel with cameraId := some deviceId }
  | .audiooutput => { sel with speakerId := some deviceId }

/-- A capture stream handle: its allocation id, the kind it was requested
for, and the exact device id in its constraints. -/
structure Stream where
  id : Nat
  kind : MDKind
  deviceId : String
deriving DecidableEq, Repr

/-- The platform world: a fresh-id counter for streams allocated by
`getUserMedia`, and the set of allocated stream ids whose tracks are still
live (not yet stopped). -/
structure World where
  nextId : Nat
  liveIds : List Nat
deriving DecidableEq, Repr

def initWorld : World := ⟨0, []⟩

/-- `track.stop()` on every track of the stream: the stream's tracks are no
longer live. -/
def stopTracks (w : World) (sid : Nat) : World :=
  { w with liveIds := w.liveIds.filter (fun i => i != sid) }

/-- `navigator.mediaDevices.getUserMedia(constraints)`: on success (per the
oracle `ok`) a fresh stream with live tracks is allocated; on failure the
world is unchanged and no stream is returned. -/
def getUserMedia (w : World) (kind : MDKind) (deviceId : String) (ok : Bool) :
    Option Stream × World :=
  if ok then
    (some ⟨w.nextId, kind, deviceId⟩,
     { nextId := w.nextId + 1, liveIds := w.nextId :: w.liveIds })
  else (none, w)

/-- The hook's stream-related state: the current selection, the
`streamRef`/`activeStream` pair (updated in lockstep by `cleanup` and by a
successful acquisition), and the current error. -/
structure HookState where
  selected : SelectedDevices
  streamRef : Option Stream
  activeStream : Option Stream
  error : Option MDError
deriving DecidableEq, Repr

def initHook : HookState :=
  { selected := ⟨none, none, none⟩, streamRef := none, activeStream := none,
    error := none }

/-- `cleanup` from `useMediaDevices.ts` lines 53-62: if a stream is held in
`streamRef`, stop all its tracks, clear `streamRef` and `activeStream`. -/
def cleanup (s : HookState) (w : World) : HookState × World :=
  match s.streamRef with
  | none => (s, w)
  | some st =>
      ({ s with streamRef := none, activeStream := none }, stopTracks w st.id)

/-- Result of the synchronous prefix of `selectDevice` (everything executed
before the `await getUserMedia` suspension point): the updated state and
world, and whether an acquisition is attempted (it is exactly for the two
input kinds). -/
structure SyncResult where
  state : HookState
  world : World
  attemptAcquire : Bool
deriving DecidableEq, Repr

/-- The synchronous prefix of `selectDevice` (`useMediaDevices.ts` lines
65-113): the unsupported-environment guard, `setError(null)`, the optimistic
selection update, and - for input kinds only - the `cleanup()` call that
stops any existing tracks before the asynchronous acquisition begins. -/
def selectDeviceSync (supported : Bool) (kind : MDKind) (deviceId : String)
    (s : HookState) (w : World) : SyncResult :=
  if !supported then
    ⟨{ s with error := some .notSupported }, w, false⟩
  else
    let s1 := { s with error := none,
                       selected := applySelection kind deviceId s.selected }
    if kind = .audioinput ∨ kind = .videoinput then
      let c := cleanup s1 w
      ⟨c.1, c.2, true⟩
    else
      ⟨s1, w, false⟩

/-- The continuation of `selectDevice` after the `await getUserMedia`
suspension point (`useMediaDevices.ts` lines 115-135): on success store the
stream in `streamRef` and publish it as `activeStream`; on failure surface
`DeviceAccessFailed(kind)` without touching the selection or the (already
cleared) stream handle. -/
def finishAcquire (kind : MDKind) (deviceId : String) (ok : Bool)
    (s : HookState) (w : World) : HookState × World :=
  match getUserMedia w kind deviceId ok with
  | (some st, w2) => ({ s with streamRef := some st, activeStream := some st }, w2)
  | (none, w2) => ({ s with error := some (.deviceAccessFailed kind) }, w2)

/-- One complete (settled) `selectDevice(kind, deviceId)` call, with `ok`
the oracle for the success of the `getUserMedia` call it may perform. -/
def selectDevice (supported : Bool) (kind : MDKind) (deviceId : String)
    (ok : Bool) (s : HookState) (w : World) : HookState × World :=
  let r := selectDeviceSync supported kind deviceId s w
  if r.attemptAcquire then finishAcquire kind deviceId ok r.state r.world
  else (r.state, r.world)

/-- Run a sequence of settled `selectDevice` calls on a supported
environment; each triple is (kind, deviceId, acquisition-success). -/
def runSelects (calls : List (MDKind × String × Bool)) (s : HookState)
    (w : World) : HookState × World :=
  match calls with
  | [] => (s, w)
  | (k, d, ok) :: rest =>
      let r := selectDevice true k d ok s w
      runSelects rest r.1 r.2

/-- The modal's microphone-stream slot `audioStreamRef`
(`DeviceSelectorModal.tsx` lines 176-287). -/
structure ModalMicState where
  audioStreamRef : Option Stream
deriving DecidableEq, Repr

/-- One settled run of the modal's `initializeMicrophone`
(`DeviceSelectorModal.tsx` lines 249-287): if the held stream already has
the requested device id, do nothing; otherwise clean up any held stream
(stop its tracks) and then acquire a fresh audio stream via `getFreshStream`
(lines 120-172), which on failure leaves the slot empty. -/
def modalMicStep (micId : String) (ok : Bool) (s : ModalMicState) (w : World) :
    ModalMicState × World :=
  match s.audioStreamRef with
  | some st =>
      if st.deviceId = micId then (s, w)
      else
        let w1 := stopTracks w st.id
        match getUserMedia w1 .audioinput micId ok with
        | (some st2, w2) => (⟨some st2⟩, w2)
        | (none, w2) => (⟨none⟩, w2)
  | none =>
      match getUserMedia w .audioinput micId ok with
      | (some st2, w2) => (⟨some st2⟩, w2)
      | (none, w2) => (⟨none⟩, w2)

/-- Run a sequence of settled `initializeMicrophone` calls; each pair is
(requested microphone id, acquisition-success). -/
def runModalMic (calls : List (String × Bool)) (s : ModalMicState) (w : World) :
    ModalMicState × World :=
  match calls with
  | [] => (s, w)
  | (d, ok) :: rest =>
      let r := modalMicStep d ok s w
      runModalMic rest r.1 r.2

/-- Single-owner invariant for the hook: either no tracks are live, or the
only live tracks belong to the one stream held in `streamRef`. -/
def hookOwnsLive (s : HookState) (w : World) : Prop :=
  w.liveIds = [] ∨ ∃ st, s.streamRef = some st ∧ w.liveIds = [st.id]

/-- Single-owner invariant for the modal microphone slot. -/
def modalOwnsLive (s : ModalMicState) (w : World) : Prop :=
  w.liveIds = [] ∨ ∃ st, s.audioStreamRef = some st ∧ w.liveIds = [st.id]

/-- A raw `MediaDeviceInfo` as returned by the platform's
`enumerateDevices`: kind is an arbitrary platform string. -/
structure RawDevice where
  deviceId : String
  kind : String
  label : String
  groupId : String
deriving DecidableEq, Repr

/-- A formatted device as produced by the hook's `enumerateDevices`
mapping (label defaulting included, `isSelected` initialised to false and
omitted here since the view recomputes it). -/
structure Device where
  deviceId : String
  kind : MDKind
  label : String
  groupId : String
deriving DecidableEq, Repr

/-- `s.toLowerCase().includes(pat)` for a lowercase pattern literal. -/
def containsLower (s pat : String) : Bool :=
  decide (pat.data <:+: s.toLower.data)

/-- The kind mapping of `enumerateDevices` (`useMediaDevices.ts` lines
188-198): a lowercased platform kind containing "video" maps to
`videoinput`; containing "audio" maps to `audiooutput` when it also
contains "out" and to `audioinput` otherwise; anything else defaults to
`audioinput`. -/
def mapKind (rawKind : String) : MDKind :=
  if containsLower rawKind "video" then .videoinput
  else if containsLower rawKind "audio" then
    (if containsLower rawKind "out" then .audiooutput else .audioinput)
  else .audioinput

/-- `kind.replace("input", "").replace("output", "")` applied to the three
kind strings, used in the default label. -/
def kindNoun : MDKind → String
  | .audioinput => "audio"
  | .videoinput => "video"
  | .audiooutput => "audio"

/-- The per-device formatting step of `enumerateDevices` (lines 188-218):
map the kind and default an empty label. -/
def formatDevice (raw : RawDevice) : Device :=
  let kind := mapKind raw.kind
  { deviceId := raw.deviceId
    kind := kind
    label := if raw.label = "" then "Unknown " ++ kindNoun kind else raw.label
    groupId := raw.groupId }

/-- The filter-and-map of `enumerateDevices` (`useMediaDevices.ts` lines
177-218): drop entries with an empty device id, drop entries whose
lowercased kind contains "video" when camera inclusion is disabled, then
format the rest. -/
def formatDevices (includeCamera : Bool) (raws : List RawDevice) :
    List Device :=
  (raws.filter (fun d =>
    (decide (d.deviceId ≠ "")) &&
    (includeCamera || !(containsLower d.kind "video")))).map formatDevice

/-- Device id of the first formatted entry of a kind, if any. -/
def firstIdOfKind (devs : List Device) (kind : MDKind) : Option String :=
  ((devs.filter (fun d => d.kind = kind)).head?).map (fun d => d.deviceId)

/-- The selection seeding of the primary `enumerateDevices`
(`useMediaDevices.ts` lines 234-239): microphone and speaker keep any
already-set value and otherwise take the first catalog entry of their kind;
`cameraId` is set to null unconditionally. -/
def seedSelections (formatted : List Device) (prev : SelectedDevices) :
    SelectedDevices :=
  { microphoneId := jsOr prev.microphoneId (firstIdOfKind formatted .audioinput)
    speakerId := jsOr prev.speakerId (firstIdOfKind formatted .audiooutput)
    cameraId := none }

/-- The selection seeding of the second `enumerateDevices` variant in the
same source file (lines 676-684 of `useMediaDevices.ts`): all three kinds,
camera included, keep any already-set value and otherwise take the first
catalog entry of their kind. -/
def seedSelectionsV2 (formatted : List Device) (prev : SelectedDevices) :
    SelectedDevices :=
  { microphoneId := jsOr prev.microphoneId (firstIdOfKind formatted .audioinput)
    cameraId := jsOr prev.cameraId (firstIdOfKind formatted .videoinput)
    speakerId := jsOr prev.speakerId (firstIdOfKind formatted .audiooutput) }

/-- The events of a session in which camera inclusion is disabled: hot-plug
(re-)enumerations, and the selections reachable through the modal (with
camera inclusion disabled the camera section is not rendered, so only
microphone and speaker selections occur; the `includeCamera` effect at
lines 266-273 additionally resets `cameraId` to null and is subsumed by the
seeding, which already nulls it). -/
inductive SessionEvent where
  | hotplugEnumerate (raws : List RawDevice)
  | selectMicrophone (id : String)
  | selectSpeaker (id : String)
deriving DecidableEq, Repr

/-- Catalog-plus-selection state of a session. -/
structure SessionState where
  devices : List Device
  selected : SelectedDevices
deriving DecidableEq, Repr

/-- One session event: enumeration replaces the catalog and reseeds the
selection; device selections update the corresponding field. -/
def sessionStep (includeCamera : Bool) (s : SessionState) :
    SessionEvent → SessionState
  | .hotplugEnumerate raws =>
      let fm := formatDevices includeCamera raws
      { devices := fm, selected := seedSelections fm s.selected }
  | .selectMicrophone id =>
      { s with selected := applySelection .audioinput id s.selected }
  | .selectSpeaker id =>
      { s with selected := applySelection .audiooutput id s.selected }

/-- A whole session from the initial state (empty catalog, nothing
selected). -/
def runSession (includeCamera : Bool) (evs : List SessionEvent) :
    SessionState :=
  evs.foldl (sessionStep includeCamera) ⟨[], ⟨none, none, none⟩⟩

/-- The cameras view of `deviceLists` (`useMediaDevices.ts` line 385). -/
def camerasOf (devs : List Device) : List Device :=
  devs.filter (fun d => d.kind = .videoinput)

/-- The loading-related state of the hook: the internal `isLoading` flag and
the `hasInitialDevices` flag (set once the device list first becomes
non-empty), plus the current device count. -/
structure LoadState where
  internalLoading : Bool
  hasInitialDevices : Bool
  devicesCount : Nat
deriving DecidableEq, Repr

/-- Initial loading state: `useState(true)` for `isLoading`,
`useState(false)` for `hasInitialDevices`, no devices. -/
def initLoad : LoadState := ⟨true, false, 0⟩

/-- Loading-relevant events: an enumeration starting (`setIsLoading(true)`
at the head of `enumerateDevices`), an enumeration resolving successfully
with `n` devices (the devices are stored, `hasInitialDevices` is latched by
the effect at lines 372-376 once the list is non-empty, and the `finally`
clears the internal flag), or an enumeration failing (only the `finally`
runs). -/
inductive LoadEvent where
  | enumStart
  | enumSuccess (n : Nat)
  | enumFailure
deriving DecidableEq, Repr

def loadStep (s : LoadState) : LoadEvent → LoadState
  | .enumStart => { s with internalLoading := true }
  | .enumSuccess n =>
      { internalLoading := false
        hasInitialDevices := s.hasInitialDevices || decide (0 < n)
        devicesCount := n }
  | .enumFailure => { s with internalLoading := false }

def runLoad (evs : List LoadEvent) : LoadState :=
  evs.foldl loadStep initLoad

/-- The `isLoading` flag published in the hook's return value
(`useMediaDevices.ts` line 430): `!hasInitialDevices || isLoading`. -/
def publishedIsLoading (s : LoadState) : Bool :=
  !s.hasInitialDevices || s.internalLoading

/-- State of the hot-plug coalescing logic in `handleDeviceChange`
(`useMediaDevices.ts` lines 291-321): how many `enumerateDevices` calls are
currently in flight, whether a device change is queued
(`pendingDeviceChange`), and how many trailing re-enumerations have been
started by the completion path. -/
structure CoalesceState where
  running : Nat
  pending : Bool
  trailing : Nat
deriving DecidableEq, Repr

def initCoalesce : CoalesceState := ⟨0, false, 0⟩

/-- A `devicechange` event firing (`handleDeviceChange` entry): if an
enumeration is in flight, only set `pendingDeviceChange`; otherwise start
an enumeration. -/
def fireDeviceChange (s : CoalesceState) : CoalesceState :=
  if s.running ≠ 0 then { s with pending := true }
  else { s with running := s.running + 1 }

/-- The in-flight enumeration completing (the `finally` block): clear the
running flag, and if a device change was queued, start exactly one trailing
re-enumeration (via `setTimeout(handleDeviceChange, 0)`, which finds no
enumeration in flight and therefore starts one). -/
def completeEnumeration (s : CoalesceState) : CoalesceState :=
  let s1 := { s with running := s.running - 1 }
  if s1.pending then
    { s1 with pending := false, running := s1.running + 1,
              trailing := s1.trailing + 1 }
  else s1

/-- Coalescing events: a `devicechange` firing, or the current enumeration
(if one is running) completing. -/
inductive CoEvent where
  | fire
  | complete
deriving DecidableEq, Repr

def coStep (s : CoalesceState) : CoEvent → CoalesceState
  | .fire => fireDeviceChange s
  | .complete => if s.running = 0 then s else completeEnumeration s

def runCoalesce (evs : List CoEvent) : CoalesceState :=
  evs.foldl coStep initCoalesce

/-- The whole body of one `updateVolume` tick
(`DeviceSelectorModal.tsx` lines 400-439), on a sampled byte buffer `buf`,
the sampled system gain `sysVol`, and the previously published level
`prev`: average the buffer, apply the noise threshold 50 and normalise by
255 clamped to 1, scale by the system gain, then publish with fast attack
and a fixed 0.02 decay floored at 0. -/
def updateVolumeTick (buf : List Nat) (sysVol prev : ℚ) : ℚ :=
  let sum : ℚ := (buf.sum : ℚ)
  let average : ℚ := sum / (buf.length : ℚ)
  let normalized : ℚ := if average < 50 then 0 else min (average / 255) 1
  let scaled : ℚ := normalized * sysVol
  if scaled > prev then scaled else max (prev - 2/100) 0

/-- The arithmetic mean of the sampled frequency buffer (`average`). -/
def byteMean (buf : List Nat) : ℚ :=
  ((buf.sum : ℚ)) / ((buf.length : ℚ))

/-- The normalised level before gain-scaling (`normalizedVolume` in the
source): 0 below the noise threshold 50, otherwise mean/255 clamped to 1. -/
def normalizedVolume (buf : List Nat) : ℚ :=
  if byteMean buf < 50 then 0 else min (byteMean buf / 255) 1

/-- The gain-scaled level (`systemScaledVolume` in the source). -/
def systemScaledVolume (buf : List Nat) (sysVol : ℚ) : ℚ :=
  normalizedVolume buf * sysVol

/-- The published level after a sequence of ticks starting from the initial
`useState(0)`; each tick is a (buffer, system gain) pair. -/
def runVolume (ticks : List (List Nat × ℚ)) : ℚ :=
  ticks.foldl (fun v t => updateVolumeTick t.1 t.2 v) 0

/-! ### Helper lemmas -/

/-- The monolithic tick equals the staged pipeline. -/
lemma updateVolumeTick_eq (buf : List Nat) (sysVol prev : ℚ) :
    updateVolumeTick buf sysVol prev =
      if systemScaledVolume buf sysVol > prev then systemScaledVolume buf sysVol
      else max (prev - 2/100) 0 := rfl

lemma normalizedVolume_nonneg (buf : List Nat) : 0 ≤ normalizedVolume buf := by
  unfold normalizedVolume
  split
  · exact le_refl 0
  · rename_i h
    have h50 : (50 : ℚ) ≤ byteMean buf := le_of_not_lt h
    have : (0 : ℚ) ≤ byteMean buf / 255 :=
      div_nonneg (le_trans (by norm_num) h50) (by norm_num)
    exact le_min this (by norm_num)

lemma normalizedVolume_le_one (buf : List Nat) : normalizedVolume buf ≤ 1 := by
  unfold normalizedVolume
  split
  · norm_num
  · exact min_le_right _ _

lemma updateVolumeTick_mem (buf : List Nat) (sysVol v : ℚ)
    (hs0 : 0 ≤ sysVol) (hs1 : sysVol ≤ 1) (hv0 : 0 ≤ v) (hv1 : v ≤ 1) :
    0 ≤ updateVolumeTick buf sysVol v ∧ updateVolumeTick buf sysVol v ≤ 1 := by
  rw [updateVolumeTick_eq]
  have hn0 := normalizedVolume_nonneg buf
  have hn1 := normalizedVolume_le_one buf
  have hsc0 : 0 ≤ systemScaledVolume buf sysVol := mul_nonneg hn0 hs0
  have hsc1 : systemScaledVolume buf sysVol ≤ 1 := by
    calc normalizedVolume buf * sysVol ≤ 1 * 1 := by
          exact mul_le_mul hn1 hs1 hs0 (by norm_num)
      _ = 1 := by norm_num
  split
  · exact ⟨hsc0, hsc1⟩
  · constructor
    · exact le_max_right _ _
    · exact max_le (by linarith) (by norm_num)

lemma runVolume_aux (ticks : List (List Nat × ℚ))
    (h : ∀ t ∈ ticks, 0 ≤ t.2 ∧ t.2 ≤ 1) :
    ∀ v : ℚ, 0 ≤ v → v ≤ 1 →
      0 ≤ ticks.foldl (fun v t => updateVolumeTick t.1 t.2 v) v ∧
      ticks.foldl (fun v t => updateVolumeTick t.1 t.2 v) v ≤ 1 := by
  induction ticks with
  | nil => intro v h0 h1; exact ⟨h0, h1⟩
  | cons t rest ih =>
      intro v h0 h1
      have ht := h t (List.mem_cons_self t rest)
      have hstep := updateVolumeTick_mem t.1 t.2 v ht.1 ht.2 h0 h1
      exact ih (fun u hu => h u (List.mem_cons_of_mem t hu)) _ hstep.1 hstep.2

/-! ### Claim theorems -/

/-- C7: for every sampled frequency buffer (non-empty, byte-valued), the
pre-gain level is 0 exactly when the buffer mean is below the threshold 50,
and otherwise equals the mean divided by 255 clamped to at most 1; and the
published audio level, across any sequence of ticks with system gain in
[0,1], always stays within [0,1]. -/
theorem media_c7_noise_floor_and_bounds :
    (∀ buf : List Nat, buf ≠ [] → (∀ b ∈ buf, b ≤ 255) →
      ((normalizedVolume buf = 0 ↔ byteMean buf < 50) ∧
       (¬ byteMean buf < 50 →
         normalizedVolume buf = min (byteMean buf / 255) 1) ∧
       0 ≤ normalizedVolume buf ∧ normalizedVolume buf ≤ 1)) ∧
    (∀ ticks : List (List Nat × ℚ), (∀ t ∈ ticks, 0 ≤ t.2 ∧ t.2 ≤ 1) →
      0 ≤ runVolume ticks ∧ runVolume ticks ≤ 1) := by
  constructor
  · intro buf _ _
    refine ⟨?_, ?_, normalizedVolume_nonneg buf, normalizedVolume_le_one buf⟩
    · constructor
      · intro h0
        by_contra hge
        have h50 : (50 : ℚ) ≤ byteMean buf := le_of_not_lt hge
        have hpos : (0 : ℚ) < byteMean buf / 255 := by
          apply div_pos (by linarith) (by norm_num)
        have : normalizedVolume buf = min (byteMean buf / 255) 1 := by
          unfold normalizedVolume
          exact if_neg hge
        rw [this] at h0
        have : (0 : ℚ) < min (byteMean buf / 255) 1 :=
          lt_min hpos (by norm_num)
        linarith [h0 ▸ this]
      · intro hlt
        unfold normalizedVolume
        exact if_pos hlt
    · intro hge
      unfold normalizedVolume
      exact if_neg hge
  · intro ticks h
    exact runVolume_aux ticks h 0 (le_refl 0) (by norm_num)

/-- C7 witness: a concrete loud buffer and a concrete tick sequence. -/
theorem media_c7_witness :
    ([100, 200] ≠ ([] : List Nat) ∧ (∀ b ∈ [100, 200], b ≤ 255) ∧
      ((normalizedVolume [100, 200] = 0 ↔ byteMean [100, 200] < 50) ∧
       (¬ byteMean [100, 200] < 50 →
         normalizedVolume [100, 200] = min (byteMean [100, 200] / 255) 1) ∧
       0 ≤ normalizedVolume [100, 200] ∧ normalizedVolume [100, 200] ≤ 1)) ∧
    ((∀ t ∈ [(([100, 200] : List Nat), (1 : ℚ))], 0 ≤ t.2 ∧ t.2 ≤ 1) ∧
      0 ≤ runVolume [([100, 200], 1)] ∧ runVolume [([100, 200], 1)] ≤ 1) := by
  refine ⟨⟨by decide, by decide, ?_⟩, ⟨?_, ?_⟩⟩
  · exact media_c7_noise_floor_and_bounds.1 [100, 200] (by decide) (by decide)
  · intro t ht
    simp only [List.mem_singleton] at ht
    subst ht
    norm_num
  · refine media_c7_noise_floor_and_bounds.2 [([100, 200], 1)] ?_
    intro t ht
    simp only [List.mem_singleton] at ht
    subst ht
    norm_num

/-- C8: on every tick, if the gain-scaled value exceeds the previously
published level it is published as-is (fast attack); otherwise the previous
level decays by exactly 0.02, floored at 0 (slow release). -/
theorem media_c8_attack_decay (buf : List Nat) (sysVol prev : ℚ) :
    (systemScaledVolume buf sysVol > prev →
      updateVolumeTick buf sysVol prev = systemScaledVolume buf sysVol) ∧
    (¬ systemScaledVolume buf sysVol > prev →
      updateVolumeTick buf sysVol prev = max (prev - 2/100) 0) := by
  rw [updateVolumeTick_eq]
  constructor
  · intro h; exact if_pos h
  · intro h; exact if_neg h

/-- C8 witness: a loud buffer triggers the fast attack from level 0; a
silent buffer triggers the 0.02 decay from level 1/2. -/
theorem media_c8_attack_decay_witness :
    (systemScaledVolume [200, 200] 1 > (0 : ℚ) ∧
      updateVolumeTick [200, 200] 1 0 = systemScaledVolume [200, 200] 1) ∧
    (¬ systemScaledVolume [0, 0] 1 > (1/2 : ℚ) ∧
      updateVolumeTick [0, 0] 1 (1/2) = max ((1/2 : ℚ) - 2/100) 0) := by
  have h1 : systemScaledVolume [200, 200] 1 > (0 : ℚ) := by
    simp only [systemScaledVolume, normalizedVolume, byteMean]
    norm_num
  have h2 : ¬ systemScaledVolume [0, 0] 1 > (1/2 : ℚ) := by
    simp only [systemScaledVolume, normalizedVolume, byteMean]
    norm_num
  exact ⟨⟨h1, (media_c8_attack_decay [200, 200] 1 0).1 h1⟩,
         ⟨h2, (media_c8_attack_decay [0, 0] 1 (1/2)).2 h2⟩⟩

/-- C10: a `selectDevice` call on an unsupported environment surfaces the
not-supported error and changes nothing else: the selection, the stream
handles and the platform world are all left untouched. -/
theorem media_c10_unsupported_select (kind : MDKind) (deviceId : String)
    (ok : Bool) (s : HookState) (w : World) :
    (selectDevice false kind deviceId ok s w).1.selected = s.selected ∧
    (selectDevice false kind deviceId ok s w).1.streamRef = s.streamRef ∧
    (selectDevice false kind deviceId ok s w).1.activeStream = s.activeStream ∧
    (selectDevice false kind deviceId ok s w).1.error = some .notSupported ∧
    (selectDevice false kind deviceId ok s w).2 = w := by
  simp [selectDevice, selectDeviceSync]

/-- C4 counterexample: the second `enumerateDevices` variant (lines 676-684
of `useMediaDevices.ts`) does auto-select the camera from the catalog: with
no prior camera selection and one video-input entry, seeding yields that
entry's id instead of null, refuting "cameraId is never auto-selected from
the catalog and defaults to null". -/
theorem media_c4_cex :
    (seedSelectionsV2 [⟨"cam1", .videoinput, "Cam", "g"⟩]
        ⟨none, none, none⟩).cameraId = some "cam1" ∧
    ¬ (seedSelectionsV2 [⟨"cam1", .videoinput, "Cam", "g"⟩]
        ⟨none, none, none⟩).cameraId = none := by
  constructor
  · rfl
  · intro h
    simp [seedSelectionsV2, jsOr, firstIdOfKind] at h

/-- C4 amended: in the primary `enumerateDevices`, microphone and speaker
are seeded to the first catalog entry of their kind only when not already
set (a set value is kept), and cameraId is reset to null on every
enumeration, never auto-selected; in the second variant in the same source
file, cameraId likewise keeps a set value but is otherwise auto-seeded to
the first video-input entry. -/
theorem media_c4_seeding (fm : List Device) (prev : SelectedDevices) :
    (seedSelections fm prev).cameraId = none ∧
    (∀ m, prev.microphoneId = some m → m ≠ "" →
      (seedSelections fm prev).microphoneId = some m) ∧
    (prev.microphoneId = none →
      (seedSelections fm prev).microphoneId = firstIdOfKind fm .audioinput) ∧
    (∀ sp, prev.speakerId = some sp → sp ≠ "" →
      (seedSelections fm prev).speakerId = some sp) ∧
    (prev.speakerId = none →
      (seedSelections fm prev).speakerId = firstIdOfKind fm .audiooutput) ∧
    (∀ c, prev.cameraId = some c → c ≠ "" →
      (seedSelectionsV2 fm prev).cameraId = some c) ∧
    (prev.cameraId = none →
      (seedSelectionsV2 fm prev).cameraId = firstIdOfKind fm .videoinput) := by
  refine ⟨rfl, ?_, ?_, ?_, ?_, ?_, ?_⟩
  · intro m hm hne
    simp [seedSelections, jsOr, hm, hne]
  · intro hm
    simp [seedSelections, jsOr, hm]
  · intro sp hsp hne
    simp [seedSelections, jsOr, hsp, hne]
  · intro hsp
    simp [seedSelections, jsOr, hsp]
  · intro c hc hne
    simp [seedSelectionsV2, jsOr, hc, hne]
  · intro hc
    simp [seedSelectionsV2, jsOr, hc]

/-- C4 witness: concrete catalog with one device of each kind, one
selection with everything set and one with nothing set. -/
theorem media_c4_seeding_witness :
    (seedSelections
        [⟨"m1", .audioinput, "M", "g"⟩, ⟨"c1", .videoinput, "C", "g"⟩,
         ⟨"s1", .audiooutput, "S", "g"⟩]
        ⟨some "m0", some "c0", some "s0"⟩).cameraId = none ∧
    (seedSelections
        [⟨"m1", .audioinput, "M", "g"⟩, ⟨"c1", .videoinput, "C", "g"⟩,
         ⟨"s1", .audiooutput, "S", "g"⟩]
        ⟨some "m0", some "c0", some "s0"⟩).microphoneId = some "m0" ∧
    (seedSelections
        [⟨"m1", .audioinput, "M", "g"⟩, ⟨"c1", .videoinput, "C", "g"⟩,
         ⟨"s1", .audiooutput, "S", "g"⟩]
        ⟨none, none, none⟩).microphoneId =
      firstIdOfKind
        [⟨"m1", .audioinput, "M", "g"⟩, ⟨"c1", .videoinput, "C", "g"⟩,
         ⟨"s1", .audiooutput, "S", "g"⟩] .audioinput ∧
    (seedSelectionsV2
        [⟨"m1", .audioinput, "M", "g"⟩, ⟨"c1", .videoinput, "C", "g"⟩,
         ⟨"s1", .audiooutput, "S", "g"⟩]
        ⟨some "m0", some "c0", some "s0"⟩).cameraId = some "c0" := by
  have h1 := media_c4_seeding
    [⟨"m1", .audioinput, "M", "g"⟩, ⟨"c1", .videoinput, "C", "g"⟩,
     ⟨"s1", .audiooutput, "S", "g"⟩]
    ⟨some "m0", some "c0", some "s0"⟩
  have h2 := media_c4_seeding
    [⟨"m1", .audioinput, "M", "g"⟩, ⟨"c1", .videoinput, "C", "g"⟩,
     ⟨"s1", .audiooutput, "S", "g"⟩]
    ⟨none, none, none⟩
  exact ⟨h1.1, h1.2.1 "m0" rfl (by decide), h2.2.2.1 rfl,
         h1.2.2.2.2.2.1 "c0" rfl (by decide)⟩

/-- C5 counterexample: after the first successful enumeration (two devices)
the published `isLoading` is false, but a hot-plug re-enumeration starting
in the same session flips it back to true, because `enumerateDevices` sets
the internal loading flag again and the hook publishes
`!hasInitialDevices || isLoading`; this refutes "after that first success
it never becomes true again during hot-plug-triggered re-enumerations". -/
theorem media_c5_cex :
    publishedIsLoading (loadStep initLoad (.enumSuccess 2)) = false ∧
    publishedIsLoading
      (loadStep (loadStep initLoad (.enumSuccess 2)) .enumStart) = true := by
  decide

/-- C5 amended: the published `isLoading` is true from start and stays true
until the first successful enumeration that yields a non-empty device list
completes; every successful non-empty enumeration ends with it false, but
each time an enumeration starts (including hot-plug re-enumerations) it is
published as true again while the enumeration is in flight. -/
theorem media_c5_loading :
    publishedIsLoading initLoad = true ∧
    (∀ evs : List LoadEvent,
      (∀ e ∈ evs, ∀ n, e = .enumSuccess n → n = 0) →
      publishedIsLoading (runLoad evs) = true) ∧
    (∀ s : LoadState, ∀ n : Nat, 0 < n →
      publishedIsLoading (loadStep s (.enumSuccess n)) = false) ∧
    (∀ s : LoadState, publishedIsLoading (loadStep s .enumStart) = true) := by
  refine ⟨rfl, ?_, ?_, ?_⟩
  · intro evs h
    have key : ∀ evs : List LoadEvent, ∀ s : LoadState,
        s.hasInitialDevices = false →
        (∀ e ∈ evs, ∀ n, e = .enumSuccess n → n = 0) →
        (evs.foldl loadStep s).hasInitialDevices = false := by
      intro evs
      induction evs with
      | nil => intro s hs _; exact hs
      | cons e rest ih =>
          intro s hs hz
          apply ih
          · cases e with
            | enumStart => exact hs
            | enumFailure => exact hs
            | enumSuccess n =>
                have hn : n = 0 := hz _ (List.mem_cons_self _ _) n rfl
                subst hn
                simp [loadStep, hs]
          · intro u hu
            exact hz u (List.mem_cons_of_mem e hu)
    have hfin := key evs initLoad rfl h
    simp [publishedIsLoading, runLoad, hfin]
  · intro s n hn
    simp [publishedIsLoading, loadStep, hn]
  · intro s
    simp [publishedIsLoading, loadStep]

/-- C5 witness: a concrete trace with only a failing and an empty
enumeration keeps the published flag true; a successful enumeration with
two devices clears it; a fresh start sets it again. -/
theorem media_c5_loading_witness :
    ((∀ e ∈ [LoadEvent.enumStart, LoadEvent.enumFailure,
             LoadEvent.enumSuccess 0], ∀ n, e = .enumSuccess n → n = 0) ∧
      publishedIsLoading (runLoad
        [LoadEvent.enumStart, LoadEvent.enumFailure,
         LoadEvent.enumSuccess 0]) = true) ∧
    ((0 : Nat) < 2 ∧
      publishedIsLoading (loadStep initLoad (.enumSuccess 2)) = false) ∧
    publishedIsLoading (loadStep initLoad .enumStart) = true := by
  have hz : ∀ e ∈ [LoadEvent.enumStart, LoadEvent.enumFailure,
      LoadEvent.enumSuccess 0], ∀ n : Nat, e = .enumSuccess n → n = 0 := by
    intro e he
    fin_cases he <;> intro n hn <;> simp_all
  refine ⟨⟨hz, ?_⟩, ⟨by decide, ?_⟩, ?_⟩
  · exact media_c5_loading.2.1 _ hz
  · exact media_c5_loading.2.2.1 initLoad 2 (by decide)
  · exact media_c5_loading.2.2.2 initLoad

lemma fireDeviceChange_running_one (p : Bool) (t : Nat) :
    fireDeviceChange ⟨1, p, t⟩ = ⟨1, true, t⟩ := by
  simp [fireDeviceChange]

lemma fireDeviceChange_iterate_fixed (k : Nat) (t : Nat) :
    fireDeviceChange^[k] ⟨1, true, t⟩ = ⟨1, true, t⟩ := by
  induction k with
  | zero => rfl
  | succ m ih =>
      rw [Function.iterate_succ_apply, fireDeviceChange_running_one, ih]

lemma coStep_running_le_one (s : CoalesceState) (e : CoEvent)
    (h : s.running ≤ 1) : (coStep s e).running ≤ 1 := by
  cases e with
  | fire =>
      simp only [coStep, fireDeviceChange]
      split
      · exact h
      · rename_i hz
        simp only [ne_eq, not_not] at hz
        simp [hz]
  | complete =>
      simp only [coStep]
      split
      · exact h
      · simp only [completeEnumeration]
        split <;> dsimp only <;> omega

lemma runCoalesce_running_le_one (evs : List CoEvent) :
    (runCoalesce evs).running ≤ 1 := by
  have key : ∀ evs : List CoEvent, ∀ s : CoalesceState, s.running ≤ 1 →
      (evs.foldl coStep s).running ≤ 1 := by
    intro evs
    induction evs with
    | nil => intro s hs; exact hs
    | cons e rest ih =>
        intro s hs
        exact ih _ (coStep_running_le_one s e hs)
  exact key evs initCoalesce (by decide)

/-- C6: with one device refresh in flight and `n ≥ 2` hot-plug events
firing during it, every event only sets the pending flag (no new
enumeration starts, so none runs per event), and when the in-flight refresh
completes exactly one trailing re-enumeration starts; that trailing run
itself completes without spawning another (the trailing count stays 1, and
1 < n); moreover along any event sequence at most one enumeration is ever
running. -/
theorem media_c6_coalescing (n : Nat) (hn : 2 ≤ n) :
    fireDeviceChange^[n] ⟨1, false, 0⟩ = ⟨1, true, 0⟩ ∧
    completeEnumeration (fireDeviceChange^[n] ⟨1, false, 0⟩) = ⟨1, false, 1⟩ ∧
    completeEnumeration
      (completeEnumeration (fireDeviceChange^[n] ⟨1, false, 0⟩)) =
      ⟨0, false, 1⟩ ∧
    1 < n ∧
    (∀ evs : List CoEvent, (runCoalesce evs).running ≤ 1) := by
  obtain ⟨m, rfl⟩ : ∃ m, n = m + 1 := ⟨n - 1, by omega⟩
  have hiter : fireDeviceChange^[m + 1] (⟨1, false, 0⟩ : CoalesceState) =
      ⟨1, true, 0⟩ := by
    rw [Function.iterate_succ_apply, fireDeviceChange_running_one,
        fireDeviceChange_iterate_fixed]
  refine ⟨hiter, ?_, ?_, by omega, fun evs => runCoalesce_running_le_one evs⟩
  · rw [hiter]; rfl
  · rw [hiter]; rfl

/-- C6 witness: three hot-plug events during one in-flight refresh coalesce
into a single trailing re-enumeration; a concrete event sequence never has
two enumerations running. -/
theorem media_c6_coalescing_witness :
    (2 ≤ 3 ∧
      fireDeviceChange^[3] ⟨1, false, 0⟩ = ⟨1, true, 0⟩ ∧
      completeEnumeration (fireDeviceChange^[3] ⟨1, false, 0⟩) =
        ⟨1, false, 1⟩ ∧
      (1 : Nat) < 3) ∧
    (runCoalesce [.fire, .fire, .fire, .complete, .complete]).running ≤ 1 := by
  have h := media_c6_coalescing 3 (by decide)
  exact ⟨⟨by decide, h.1, h.2.1, h.2.2.2.1⟩,
         h.2.2.2.2 [.fire, .fire, .fire, .complete, .complete]⟩

lemma mapKind_videoinput_iff (k : String) :
    mapKind k = .videoinput ↔ containsLower k "video" = true := by
  unfold mapKind
  split
  · rename_i h; simp [h]
  · rename_i h
    simp only [Bool.not_eq_true] at h
    split
    · split <;> simp [h]
    · simp [h]

lemma formatDevices_no_video (raws : List RawDevice) :
    camerasOf (formatDevices false raws) = [] := by
  rw [camerasOf, List.filter_eq_nil_iff]
  intro d hd
  rw [formatDevices, List.mem_map] at hd
  obtain ⟨r, hr, rfl⟩ := hd
  rw [List.mem_filter] at hr
  have hnv : containsLower r.kind "video" = false := by
    have := hr.2
    simp only [Bool.false_or, Bool.and_eq_true, Bool.not_eq_true'] at this
    exact this.2
  have : mapKind r.kind ≠ .videoinput := by
    rw [ne_eq, mapKind_videoinput_iff, hnv]
    simp
  simp [formatDevice, this]

lemma session_inv (evs : List SessionEvent) :
    ∀ s : SessionState,
      camerasOf s.devices = [] → s.selected.cameraId = none →
      camerasOf ((evs.foldl (sessionStep false) s)).devices = [] ∧
      ((evs.foldl (sessionStep false) s)).selected.cameraId = none := by
  induction evs with
  | nil => intro s h1 h2; exact ⟨h1, h2⟩
  | cons e rest ih =>
      intro s h1 h2
      cases e with
      | hotplugEnumerate raws =>
          exact ih _ (formatDevices_no_video raws) rfl
      | selectMicrophone id =>
          exact ih _ h1 h2
      | selectSpeaker id =>
          exact ih _ h1 h2

/-- C9: with camera inclusion disabled at session start, any sequence of
hot-plug (re-)enumerations and device selections leaves the cameras view of
the device lists empty and `cameraId` null. -/
theorem media_c9_no_camera_session (evs : List SessionEvent) :
    camerasOf (runSession false evs).devices = [] ∧
    (runSession false evs).selected.cameraId = none := by
  exact session_inv evs ⟨[], ⟨none, none, none⟩⟩ rfl rfl

lemma cleanup_clears (s : HookState) (w : World) (h : hookOwnsLive s w) :
    (cleanup s w).1.streamRef = none ∧ (cleanup s w).2.liveIds = [] ∧
    (cleanup s w).1.selected = s.selected ∧
    (cleanup s w).1.error = s.error := by
  rcases h with hw | ⟨st, hst, hw⟩
  · cases hs : s.streamRef with
    | none => simp [cleanup, hs, hw]
    | some st => simp [cleanup, hs, stopTracks, hw]
  · simp [cleanup, hst, stopTracks, hw]

lemma finishAcquire_inv (k : MDKind) (d : String) (ok : Bool)
    (s : HookState) (w : World) (hs : s.streamRef = none)
    (hw : w.liveIds = []) :
    hookOwnsLive (finishAcquire k d ok s w).1 (finishAcquire k d ok s w).2 := by
  cases ok with
  | true =>
      right
      exact ⟨⟨w.nextId, k, d⟩, by simp [finishAcquire, getUserMedia],
             by simp [finishAcquire, getUserMedia, hw]⟩
  | false =>
      left
      simp [finishAcquire, getUserMedia, hw]

lemma selectDevice_inv (k : MDKind) (d : String) (ok : Bool)
    (s : HookState) (w : World) (h : hookOwnsLive s w) :
    hookOwnsLive (selectDevice true k d ok s w).1
      (selectDevice true k d ok s w).2 := by
  have h1 : hookOwnsLive
      { s with error := none, selected := applySelection k d s.selected } w := by
    rcases h with hw | ⟨st, hst, hw⟩
    · exact Or.inl hw
    · exact Or.inr ⟨st, hst, hw⟩
  cases k with
  | audioinput =>
      simp only [selectDevice, selectDeviceSync, Bool.not_true,
        Bool.false_eq_true, if_false, reduceIte]
      have hc := cleanup_clears _ w h1
      exact finishAcquire_inv _ d ok _ _ hc.1 hc.2.1
  | videoinput =>
      simp only [selectDevice, selectDeviceSync, Bool.not_true,
        Bool.false_eq_true, if_false, reduceIte]
      have hc := cleanup_clears _ w h1
      exact finishAcquire_inv _ d ok _ _ hc.1 hc.2.1
  | audiooutput =>
      simp only [selectDevice, selectDeviceSync, Bool.not_true,
        Bool.false_eq_true, if_false, reduceIte]
      exact h1

lemma runSelects_inv (calls : List (MDKind × String × Bool)) :
    ∀ s w, hookOwnsLive s w →
      hookOwnsLive (runSelects calls s w).1 (runSelects calls s w).2 := by
  induction calls with
  | nil => intro s w h; exact h
  | cons c rest ih =>
      intro s w h
      exact ih _ _ (selectDevice_inv c.1 c.2.1 c.2.2 s w h)

lemma modalMicStep_inv (d : String) (ok : Bool) (s : ModalMicState)
    (w : World) (h : modalOwnsLive s w) :
    modalOwnsLive (modalMicStep d ok s w).1 (modalMicStep d ok s w).2 := by
  cases hs : s.audioStreamRef with
  | none =>
      have hw : w.liveIds = [] := by
        rcases h with hw | ⟨st, hst, _⟩
        · exact hw
        · rw [hs] at hst; cases hst
      cases ok with
      | true =>
          right
          exact ⟨⟨w.nextId, .audioinput, d⟩,
            by simp [modalMicStep, hs, getUserMedia],
            by simp [modalMicStep, hs, getUserMedia, hw]⟩
      | false =>
          left
          simp [modalMicStep, hs, getUserMedia, hw]
  | some st =>
      by_cases hd : st.deviceId = d
      · rcases h with hw | ⟨st2, hst2, hw⟩
        · exact Or.inl (by simp [modalMicStep, hs, hd, hw])
        · rw [hs] at hst2
          cases hst2
          exact Or.inr ⟨st, by simp [modalMicStep, hs, hd], by
            simp [modalMicStep, hs, hd, hw]⟩
      · have hw2 : (stopTracks w st.id).liveIds = [] := by
          rcases h with hw | ⟨st2, hst2, hw⟩
          · simp [stopTracks, hw]
          · rw [hs] at hst2
            cases hst2
            simp [stopTracks, hw]
        cases ok with
        | true =>
            right
            exact ⟨⟨(stopTracks w st.id).nextId, .audioinput, d⟩,
              by simp [modalMicStep, hs, hd, getUserMedia],
              by simp [modalMicStep, hs, hd, getUserMedia, hw2]⟩
        | false =>
            left
            simp [modalMicStep, hs, hd, getUserMedia, hw2]

lemma runModalMic_inv (calls : List (String × Bool)) :
    ∀ s w, modalOwnsLive s w →
      modalOwnsLive (runModalMic calls s w).1 (runModalMic calls s w).2 := by
  induction calls with
  | nil => intro s w h; exact h
  | cons c rest ih =>
      intro s w h
      exact ih _ _ (modalMicStep_inv c.1 c.2 s w h)

lemma ownsLive_conclusions (liveIds : List Nat) (ref : Option Stream)
    (h : liveIds = [] ∨ ∃ st, ref = some st ∧ liveIds = [st.id]) :
    liveIds.length ≤ 1 ∧
    ∀ i ∈ liveIds, ∃ st, ref = some st ∧ st.id = i := by
  rcases h with rfl | ⟨st, hst, rfl⟩
  · exact ⟨by simp, by simp⟩
  · refine ⟨by simp, ?_⟩
    intro i hi
    simp only [List.mem_singleton] at hi
    exact ⟨st, hst, hi.symm⟩

/-- C1: after any settled sequence of `selectDevice` calls for one input
kind (from the initial hook state and a fresh platform world), at most one
stream has live tracks, and every live stream is the one currently held in
`streamRef` (nothing is leaked); the same holds for the modal's
`initializeMicrophone`/`getFreshStream` slot across any settled sequence of
microphone (re-)initialisations. -/
theorem media_c1_single_live_stream (k : MDKind)
    (hk : k = .audioinput ∨ k = .videoinput)
    (calls : List (String × Bool)) (mcalls : List (String × Bool)) :
    ((runSelects (calls.map (fun c => (k, c.1, c.2))) initHook
        initWorld).2.liveIds.length ≤ 1 ∧
      (∀ i ∈ (runSelects (calls.map (fun c => (k, c.1, c.2))) initHook
          initWorld).2.liveIds,
        ∃ st, (runSelects (calls.map (fun c => (k, c.1, c.2))) initHook
          initWorld).1.streamRef = some st ∧ st.id = i)) ∧
    ((runModalMic mcalls ⟨none⟩ initWorld).2.liveIds.length ≤ 1 ∧
      (∀ i ∈ (runModalMic mcalls ⟨none⟩ initWorld).2.liveIds,
        ∃ st, (runModalMic mcalls ⟨none⟩ initWorld).1.audioStreamRef =
          some st ∧ st.id = i)) := by
  constructor
  · exact ownsLive_conclusions _ _
      (runSelects_inv _ initHook initWorld (Or.inl rfl))
  · exact ownsLive_conclusions _ _
      (runModalMic_inv mcalls ⟨none⟩ initWorld (Or.inl rfl))

/-- C1 witness: two audio-input selections (second one failing) and two
modal microphone initialisations. -/
theorem media_c1_single_live_stream_witness :
    (MDKind.audioinput = .audioinput ∨ MDKind.audioinput = .videoinput) ∧
    ((runSelects ([("m1", true), ("m2", false)].map
        (fun c => (MDKind.audioinput, c.1, c.2))) initHook
        initWorld).2.liveIds.length ≤ 1 ∧
      (∀ i ∈ (runSelects ([("m1", true), ("m2", false)].map
          (fun c => (MDKind.audioinput, c.1, c.2))) initHook
          initWorld).2.liveIds,
        ∃ st, (runSelects ([("m1", true), ("m2", false)].map
          (fun c => (MDKind.audioinput, c.1, c.2))) initHook
          initWorld).1.streamRef = some st ∧ st.id = i)) ∧
    ((runModalMic [("m1", true), ("m2", true)] ⟨none⟩
        initWorld).2.liveIds.length ≤ 1 ∧
      (∀ i ∈ (runModalMic [("m1", true), ("m2", true)] ⟨none⟩
          initWorld).2.liveIds,
        ∃ st, (runModalMic [("m1", true), ("m2", true)] ⟨none⟩
          initWorld).1.audioStreamRef = some st ∧ st.id = i)) := by
  have h := media_c1_single_live_stream .audioinput (Or.inl rfl)
    [("m1", true), ("m2", false)] [("m1", true), ("m2", true)]
  exact ⟨Or.inl rfl, h.1, h.2⟩

/-- C2 counterexample: acquire a microphone successfully (stream 0 live and
published as `activeStream`), then fail a camera acquisition.  The failed
camera acquisition does not leave the microphone stream untouched:
`selectDevice` runs `cleanup()` before the acquisition attempt, so stream
0's tracks are stopped and `activeStream` is null afterwards, refuting the
claim that the microphone stream's tracks stay live and the `activeStream`
handle stays untouched. -/
theorem media_c2_cex :
    0 ∈ (selectDevice true .audioinput "mic1" true initHook
        initWorld).2.liveIds ∧
    (selectDevice true .audioinput "mic1" true initHook
        initWorld).1.activeStream = some ⟨0, .audioinput, "mic1"⟩ ∧
    0 ∉ (selectDevice true .videoinput "cam1" false
        (selectDevice true .audioinput "mic1" true initHook initWorld).1
        (selectDevice true .audioinput "mic1" true initHook
          initWorld).2).2.liveIds ∧
    (selectDevice true .videoinput "cam1" false
        (selectDevice true .audioinput "mic1" true initHook initWorld).1
        (selectDevice true .audioinput "mic1" true initHook
          initWorld).2).1.activeStream = none := by
  decide

/-- C2 amended: a failed camera acquisition does preserve the selection
state and surfaces `DeviceAccessFailed` (the microphone selection is not
reverted), but it does not preserve the previous stream: `cleanup()` runs
before the acquisition attempt, so the previously live microphone stream's
tracks are stopped and both `streamRef` and `activeStream` are null. -/
theorem media_c2_failed_camera (s : HookState) (w : World) (micSt : Stream)
    (href : s.streamRef = some micSt) (hl : w.liveIds = [micSt.id])
    (camId : String) :
    (selectDevice true .videoinput camId false s w).1.selected.cameraId =
      some camId ∧
    (selectDevice true .videoinput camId false s w).1.selected.microphoneId =
      s.selected.microphoneId ∧
    (selectDevice true .videoinput camId false s w).1.error =
      some (.deviceAccessFailed .videoinput) ∧
    (selectDevice true .videoinput camId false s w).1.streamRef = none ∧
    (selectDevice true .videoinput camId false s w).1.activeStream = none ∧
    (selectDevice true .videoinput camId false s w).2.liveIds = [] := by
  simp only [selectDevice, selectDeviceSync, Bool.not_true, Bool.false_eq_true,
    if_false, reduceIte, cleanup, href, finishAcquire, getUserMedia,
    stopTracks, hl, applySelection]
  simp

/-- C2 amended witness: a concrete hook state holding live microphone
stream 0. -/
theorem media_c2_failed_camera_witness :
    (({ selected := ⟨some "mic1", none, none⟩,
        streamRef := some ⟨0, .audioinput, "mic1"⟩,
        activeStream := some ⟨0, .audioinput, "mic1"⟩,
        error := none } : HookState).streamRef =
      some ⟨0, .audioinput, "mic1"⟩ ∧
     (⟨1, [0]⟩ : World).liveIds = [(0 : Nat)]) ∧
    ((selectDevice true .videoinput "cam1" false
        { selected := ⟨some "mic1", none, none⟩,
          streamRef := some ⟨0, .audioinput, "mic1"⟩,
          activeStream := some ⟨0, .audioinput, "mic1"⟩,
          error := none } ⟨1, [0]⟩).1.selected.cameraId = some "cam1" ∧
     (selectDevice true .videoinput "cam1" false
        { selected := ⟨some "mic1", none, none⟩,
          streamRef := some ⟨0, .audioinput, "mic1"⟩,
          activeStream := some ⟨0, .audioinput, "mic1"⟩,
          error := none } ⟨1, [0]⟩).1.selected.microphoneId = some "mic1" ∧
     (selectDevice true .videoinput "cam1" false
        { selected := ⟨some "mic1", none, none⟩,
          streamRef := some ⟨0, .audioinput, "mic1"⟩,
          activeStream := some ⟨0, .audioinput, "mic1"⟩,
          error := none } ⟨1, [0]⟩).1.error =
       some (.deviceAccessFailed .videoinput) ∧
     (selectDevice true .videoinput "cam1" false
        { selected := ⟨some "mic1", none, none⟩,
          streamRef := some ⟨0, .audioinput, "mic1"⟩,
          activeStream := some ⟨0, .audioinput, "mic1"⟩,
          error := none } ⟨1, [0]⟩).2.liveIds = []) := by
  have h := media_c2_failed_camera
    { selected := ⟨some "mic1", none, none⟩,
      streamRef := some ⟨0, .audioinput, "mic1"⟩,
      activeStream := some ⟨0, .audioinput, "mic1"⟩,
      error := none } ⟨1, [0]⟩ ⟨0, .audioinput, "mic1"⟩ rfl rfl "cam1"
  exact ⟨⟨rfl, rfl⟩, h.1, h.2.1, h.2.2.1, h.2.2.2.2.2⟩

lemma selField_applySelection (kind : MDKind) (d : String)
    (sel : SelectedDevices) :
    selField kind (applySelection kind d sel) = some d := by
  cases kind <;> rfl

/-- C3: on a supported environment, `selectDevice(kind, id)` writes the
selection for that kind already in its synchronous prefix, before the
asynchronous acquisition runs; the final selection equals the new id
whether the acquisition succeeds or fails, and for input kinds a failed
acquisition surfaces `DeviceAccessFailed(kind)` while keeping the new id. -/
theorem media_c3_optimistic_selection (kind : MDKind) (deviceId : String)
    (s : HookState) (w : World) :
    selField kind ((selectDeviceSync true kind deviceId s w).state.selected) =
      some deviceId ∧
    (∀ ok : Bool,
      selField kind ((selectDevice true kind deviceId ok s w).1.selected) =
        some deviceId) ∧
    ((kind = .audioinput ∨ kind = .videoinput) →
      (selectDevice true kind deviceId false s w).1.error =
        some (.deviceAccessFailed kind)) := by
  cases kind with
  | audioinput =>
      refine ⟨?_, ?_, ?_⟩
      · simp only [selectDeviceSync, Bool.not_true, Bool.false_eq_true,
          if_false, reduceIte]
        cases hs : s.streamRef <;>
          simp [cleanup, hs, selField, applySelection]
      · intro ok
        simp only [selectDevice, selectDeviceSync, Bool.not_true,
          Bool.false_eq_true, if_false, reduceIte]
        cases hs : s.streamRef <;> cases ok <;>
          simp [cleanup, hs, finishAcquire, getUserMedia, selField,
            applySelection]
      · intro _
        simp only [selectDevice, selectDeviceSync, Bool.not_true,
          Bool.false_eq_true, if_false, reduceIte]
        cases hs : s.streamRef <;>
          simp [cleanup, hs, finishAcquire, getUserMedia]
  | videoinput =>
      refine ⟨?_, ?_, ?_⟩
      · simp only [selectDeviceSync, Bool.not_true, Bool.false_eq_true,
          if_false, reduceIte]
        cases hs : s.streamRef <;>
          simp [cleanup, hs, selField, applySelection]
      · intro ok
        simp only [selectDevice, selectDeviceSync, Bool.not_true,
          Bool.false_eq_true, if_false, reduceIte]
        cases hs : s.streamRef <;> cases ok <;>
          simp [cleanup, hs, finishAcquire, getUserMedia, selField,
            applySelection]
      · intro _
        simp only [selectDevice, selectDeviceSync, Bool.not_true,
          Bool.false_eq_true, if_false, reduceIte]
        cases hs : s.streamRef <;>
          simp [cleanup, hs, finishAcquire, getUserMedia]
  | audiooutput =>
      refine ⟨?_, ?_, ?_⟩
      · simp [selectDeviceSync, selField, applySelection]
      · intro ok
        simp [selectDevice, selectDeviceSync, selField, applySelection]
      · intro hk
        rcases hk with hk | hk <;> cases hk

/-- C3 witness: a concrete failed microphone selection from the initial
state keeps the optimistic selection and surfaces the access failure. -/
theorem media_c3_optimistic_selection_witness :
    selField .audioinput
      ((selectDeviceSync true .audioinput "mic2" initHook
        initWorld).state.selected) = some "mic2" ∧
    selField .audioinput
      ((selectDevice true .audioinput "mic2" false initHook
        initWorld).1.selected) = some "mic2" ∧
    ((MDKind.audioinput = .audioinput ∨ MDKind.audioinput = .videoinput) ∧
      (selectDevice true .audioinput "mic2" false initHook
        initWorld).1.error = some (.deviceAccessFailed .audioinput)) := by
  have h := media_c3_optimistic_selection .audioinput "mic2" initHook initWorld
  exact ⟨h.1, h.2.1 false, Or.inl rfl, h.2.2 (Or.inl rfl)⟩

end MediaDeviceSelector
